import Mathlib

/-!
Shallow embedding of the virtualized, lazily-paginated grid data model of
`jupyterlab-hdf5` (`src/dataset.ts`, class `HdfDatasetModelBase`).

The class is a Lumino `DataModel` holding: a bound resource (`_fpath`, `_uri`),
the active slice string `_ixstr`, the current dataset metadata `_meta`
(possibly absent), a sparse two-level block cache `_blocks` (JS object used as
a hashmap: row index -> (column index -> "busy" | 2-D data array)), and the
constant `_blockSize = 100`.

The embedding is explicit state passing: each method becomes a function from
a `ModelState` (plus the method's arguments) to an updated state together
with the observable outputs of that call (value returned, change events
emitted, fetch requests issued).  Asynchronous completions (the `.then`
callbacks of `hdfDataRequest` / `hdfContentsRequest`) are separate functions
applied to the state current at resolution time; the values the source
closure captured at issue time travel in a `PendingFetch` record.

JS property semantics are modelled faithfully: reading a missing property
yields `none`; *assigning* a property of a missing object
(`this._blocks[rowBlock][colBlock] = v` when `this._blocks[rowBlock]` is
undefined) throws a TypeError, modelled by an `Option`-valued result
(`none` = the callback threw, state unchanged, nothing emitted).
-/

/-- Modelled from the spec: `ISlice` of `src/slice.ts` (not under src/):
a per-axis slice descriptor `\x7bstart, stop, step\x7d`. -/
structure ISlice where
  start : Int
  stop : Int
  step : Int
deriving DecidableEq

/-- Modelled from the spec: `noneSlice()` of `src/slice.ts` (not under src/):
the no-op sentinel slice (start=0, stop=0, step=1) meaning "no metadata yet". -/
def noneSlice : ISlice := ⟨0, 0, 1⟩

/-- Modelled from the spec: `IDatasetMeta` of `src/hdf.ts` (not under src/):
metadata for a given (resource, slice string) — the visible shape
(rows, columns) and the per-axis slice labels, plus the slice string it was
produced for. -/
structure IDatasetMeta where
  ixstr : String
  visshape : Nat × Nat
  vislabels : ISlice × ISlice
deriving DecidableEq

/-- A resolved block's payload: the 2-D array of cell values returned by
`hdfDataRequest`.  Cell payloads are opaque to the model; `Int` stands in. -/
abbrev BlockData := List (List Int)

/-- State of one entry of the `_blocks` cache: the string `"busy"` or a
resolved 2-D data array.  A block with no entry at all is Absent. -/
inductive BlockState where
  | busy
  | resolved (data : BlockData)
deriving DecidableEq

/-- One level of the sparse JS-object hashmap: column block index to state. -/
abbrev BlockRow := List (Nat × BlockState)

/-- The `_blocks` cache: row block index to `BlockRow`. -/
abbrev Blocks := List (Nat × BlockRow)

/-- Property read on a JS object-as-hashmap: `none` = undefined. -/
def lookupA {α : Type} : List (Nat × α) → Nat → Option α
  | [], _ => none
  | (k', v) :: rest, k => if k' = k then some v else lookupA rest k

/-- Property write on a JS object-as-hashmap (creates the key if missing). -/
def setA {α : Type} : List (Nat × α) → Nat → α → List (Nat × α)
  | [], k, v => [(k, v)]
  | (k', v') :: rest, k, v =>
    if k' = k then (k, v) :: rest else (k', v') :: setA rest k v

/-- `_blocks[r][c]` as a read: `none` when the row object or the inner
property is missing (the block is Absent). -/
def lookupBlock (b : Blocks) (r c : Nat) : Option BlockState :=
  match lookupA b r with
  | none => none
  | some brow => lookupA brow c

/-- The regions of `DataModel.RowRegion`. -/
inductive RowRegion where
  | body
  | columnHeader
deriving DecidableEq

/-- The regions of `DataModel.ColumnRegion`. -/
inductive ColumnRegion where
  | body
  | rowHeader
deriving DecidableEq

/-- The regions of `DataModel.CellRegion`. -/
inductive CellRegion where
  | body
  | rowHeader
  | columnHeader
  | cornerHeader
deriving DecidableEq

/-- The value returned by `data()`: a header string, a body cell value,
`null`, JS `undefined` (out-of-range inner index), or a thrown TypeError
(indexing a property of `undefined`). -/
inductive CellResult where
  | str (s : String)
  | val (v : Int)
  | null
  | undef
  | thrown
deriving DecidableEq

/-- The argument records passed to `emitChanged` (`DataModel.ChangedArgs`),
restricted to the variants this model emits (all on region "body"). -/
inductive ChangedArgs where
  | rowsRemoved (index span : Nat)
  | columnsRemoved (index span : Nat)
  | rowsInserted (index span : Nat)
  | columnsInserted (index span : Nat)
  | modelReset
  | cellsChanged (row column rowSpan columnSpan : Nat)
deriving DecidableEq

/-- An observable emission: an `emitChanged` event or the `_refreshed`
signal carrying the active slice string. -/
inductive Event where
  | changed (args : ChangedArgs)
  | refreshed (ixstr : String)
deriving DecidableEq

/-- The parameter record of `hdfContentsRequest` built by `refresh()`. -/
structure ContentsParameters where
  fpath : String
  uri : String
  ixstr : String
deriving DecidableEq

/-- The parameter record of `hdfDataRequest` built by `_fetchBlock`. -/
structure DataParameters where
  fpath : String
  uri : String
  ixstr : String
  subixstr : String
deriving DecidableEq

/-- An in-flight block fetch: the request parameters together with the
values the `.then` callback of `_fetchBlock` captured at issue time
(`rowBlock`, `colBlock`, `row`, `rowStop`, `column`, `colStop`). -/
structure PendingFetch where
  rowBlock : Nat
  colBlock : Nat
  row : Nat
  rowStop : Nat
  column : Nat
  colStop : Nat
  params : DataParameters
deriving DecidableEq

/-- The mutable state of one `HdfDatasetModelBase` instance. -/
structure ModelState where
  fpath : String
  uri : String
  ixstr : String
  meta : Option IDatasetMeta
  blocks : Blocks
  blockSize : Nat
deriving DecidableEq

namespace HdfDatasetModelBase

/-- `rowCount(region)`: `this._meta?.visshape[0] || 0` for "body", else 1. -/
def rowCount (s : ModelState) (region : RowRegion) : Nat :=
  match region with
  | .body =>
    match s.meta with
    | some m => m.visshape.1
    | none => 0
  | .columnHeader => 1

/-- `columnCount(region)`: `this._meta?.visshape[1] || 0` for "body", else 1. -/
def columnCount (s : ModelState) (region : ColumnRegion) : Nat :=
  match region with
  | .body =>
    match s.meta with
    | some m => m.visshape.2
    | none => 0
  | .rowHeader => 1

/-- `get rowSlice()`: `this._meta?.vislabels[0] || noneSlice()`. -/
def rowSlice (s : ModelState) : ISlice :=
  match s.meta with
  | some m => m.vislabels.1
  | none => noneSlice

/-- `get colSlice()`: `this._meta?.vislabels[1] || noneSlice()`. -/
def colSlice (s : ModelState) : ISlice :=
  match s.meta with
  | some m => m.vislabels.2
  | none => noneSlice

/-- `this._blocks[rowBlock][colBlock][relRow][relCol]` on a resolved block:
a missing outer row throws (`thrown`), a missing inner entry is `undefined`. -/
def blockCell (d : BlockData) (relRow relCol : Nat) : CellResult :=
  match d.get? relRow with
  | none => .thrown
  | some r =>
    match r.get? relCol with
    | none => .undef
    | some v => .val v

/-- `_fetchBlock(rowBlock, colBlock)`: sets the block entry to `"busy"`,
computes the clipped cell range, and issues an `hdfDataRequest` whose
`subixstr` is the template literal
`$\x7brow\x7d:$\x7browStop\x7d, $\x7bcolumn\x7d:$\x7bcolStop\x7d`.
Returns the updated state and the issued fetch; `none` models the TypeError
thrown when `this._blocks[rowBlock]` is undefined (never the case for the
calls `data()` makes, which create the row object first). -/
def _fetchBlock (s : ModelState) (rowBlock colBlock : Nat) :
    Option (ModelState × PendingFetch) :=
  match lookupA s.blocks rowBlock with
  | none => none
  | some brow =>
    let s' : ModelState :=
      { s with blocks := setA s.blocks rowBlock (setA brow colBlock .busy) }
    let row := rowBlock * s.blockSize
    let rowStop := min (row + s.blockSize) (rowCount s' .body)
    let column := colBlock * s.blockSize
    let colStop := min (column + s.blockSize) (columnCount s' .body)
    some (s', ⟨rowBlock, colBlock, row, rowStop, column, colStop,
      ⟨s'.fpath, s'.uri, s'.ixstr,
        toString row ++ ":" ++ toString rowStop ++ ", " ++
          toString column ++ ":" ++ toString colStop⟩⟩)

/-- The `.then` callback of the `hdfDataRequest` in `_fetchBlock`, applied
to the state current when the fetch resolves: stores the data
(`this._blocks[rowBlock][colBlock] = data`) and emits one `cells-changed`
event built from the captured `row`/`column`/`rowStop`/`colStop`.  `none`
models the TypeError thrown when `this._blocks[rowBlock]` is undefined
(e.g. after an invalidation replaced the cache): no write, no event. -/
def fetchBlockResolve (s : ModelState) (f : PendingFetch) (d : BlockData) :
    Option (ModelState × ChangedArgs) :=
  match lookupA s.blocks f.rowBlock with
  | none => none
  | some brow =>
    some ({ s with
              blocks := setA s.blocks f.rowBlock (setA brow f.colBlock (.resolved d)) },
      .cellsChanged f.row f.column (f.rowStop - f.row) (f.colStop - f.column))

/-- The outcome of one `data()` call: the state after the call, the block
fetch it issued (if any) and the value it returned. -/
structure DataOutcome where
  state : ModelState
  fetch : Option PendingFetch
  value : CellResult
deriving DecidableEq

/-- `data(region, row, col)`, translated branch for branch from the source:
header regions are pure; for "body" it computes
`relRow = row % blockSize`, `rowBlock = (row - relRow) / blockSize` (and
symmetrically for columns), then serves from the cache, suppresses the
fetch when the entry is `"busy"`, and otherwise triggers `_fetchBlock`
(creating the missing row object first) and returns null. -/
def data (s : ModelState) (region : CellRegion) (row col : Nat) : DataOutcome :=
  match region with
  | .rowHeader =>
    ⟨s, none, .str (toString ((rowSlice s).start + (row : Int) * (rowSlice s).step))⟩
  | .columnHeader =>
    ⟨s, none, .str (toString ((colSlice s).start + (col : Int) * (colSlice s).step))⟩
  | .cornerHeader => ⟨s, none, .null⟩
  | .body =>
    let relRow := row % s.blockSize
    let relCol := col % s.blockSize
    let rowBlock := (row - relRow) / s.blockSize
    let colBlock := (col - relCol) / s.blockSize
    match lookupA s.blocks rowBlock with
    | some brow =>
      match lookupA brow colBlock with
      | some .busy => ⟨s, none, .null⟩
      | some (.resolved d) => ⟨s, none, blockCell d relRow relCol⟩
      | none =>
        match _fetchBlock s rowBlock colBlock with
        | some (s', f) => ⟨s', some f, .null⟩
        | none => ⟨s, none, .thrown⟩
    | none =>
      let s0 : ModelState := { s with blocks := setA s.blocks rowBlock [] }
      match _fetchBlock s0 rowBlock colBlock with
      | some (s', f) => ⟨s', some f, .null⟩
      | none => ⟨s0, none, .thrown⟩

/-- `_refresh(meta)`: records the old body extent, swaps in the new
metadata, clears the block cache, and emits — in order — `rows-removed`,
`columns-removed` (old extent), `rows-inserted`, `columns-inserted` (new
extent), `model-reset`, then the `_refreshed` signal with `this.ixstr`. -/
def _refresh (s : ModelState) (meta : IDatasetMeta) : ModelState × List Event :=
  let oldRowCount := rowCount s .body
  let oldColCount := columnCount s .body
  let s' : ModelState := { s with meta := some meta, blocks := [] }
  (s', [ .changed (.rowsRemoved 0 oldRowCount),
         .changed (.columnsRemoved 0 oldColCount),
         .changed (.rowsInserted 0 (rowCount s' .body)),
         .changed (.columnsInserted 0 (columnCount s' .body)),
         .changed .modelReset,
         .refreshed s'.ixstr ])

/-- The parameter record `refresh()` builds for `hdfContentsRequest` from
the current `_fpath`, `_uri`, `_ixstr`. -/
def refreshParams (s : ModelState) : ContentsParameters :=
  ⟨s.fpath, s.uri, s.ixstr⟩

/-- The outcome of one `refresh()` call: the state afterwards, the events
emitted, and whether the returned promise rejected. -/
structure RefreshOutcome where
  state : ModelState
  events : List Event
  rejected : Bool
deriving DecidableEq

/-- `refresh()`: issues `hdfContentsRequest(params)` and chains `_refresh`
onto the response.  The environment's response is the argument: `some meta`
for a fulfilled metadata request, `none` for a rejected one.  With no
rejection handler in the source, a rejection skips the `_refresh` chain
entirely (no state change, no events) and propagates to the caller. -/
def refresh (s : ModelState) (response : Option IDatasetMeta) : RefreshOutcome :=
  match response with
  | none => ⟨s, [], true⟩
  | some meta =>
    let (s', evs) := _refresh s meta
    ⟨s', evs, false⟩

/-- `set ixstr(ixstr)`: synchronously stores the new slice string, then
calls `refresh()`, which synchronously builds its request parameters from
the updated state before suspending on the network.  Returns the updated
state and those parameters. -/
def setIxstr (s : ModelState) (ix : String) : ModelState × ContentsParameters :=
  let s' : ModelState := { s with ixstr := ix }
  (s', refreshParams s')

/-- One interleaving step between two invalidations: a `data()` call, the
resolution of some in-flight block fetch, or its rejection.  A rejected
`hdfDataRequest` runs no code at all in the source (`.then` has no second
argument and there is no `.catch`), so it is a pure no-op. -/
inductive Op where
  | query (region : CellRegion) (row col : Nat)
  | resolve (f : PendingFetch) (d : BlockData)
  | reject (f : PendingFetch)
deriving DecidableEq

/-- Run one `Op` against a state; returns the new state and the block
fetches the step issued. -/
def stepOp (s : ModelState) (op : Op) : ModelState × List PendingFetch :=
  match op with
  | .query region row col =>
    let o := data s region row col
    (o.state, o.fetch.toList)
  | .resolve f d =>
    match fetchBlockResolve s f d with
    | some (s', _) => (s', [])
    | none => (s, [])
  | .reject _ => (s, [])

/-- Run a list of `Op`s; returns the final state and every fetch issued,
in order. -/
def runOps (s : ModelState) : List Op → ModelState × List PendingFetch
  | [] => (s, [])
  | op :: rest =>
    let p := stepOp s op
    let q := runOps p.1 rest
    (q.1, p.2 ++ q.2)

/-- How many fetches in a list target the block `(R, C)`. -/
def countFetches (fs : List PendingFetch) (R C : Nat) : Nat :=
  fs.countP (fun f => f.rowBlock == R && f.colBlock == C)

/-- The fetch record `_fetchBlock s rB cB` issues (whenever the row object
exists): the clipped block rectangle and the request parameters. -/
def issuedFetch (s : ModelState) (rB cB : Nat) : PendingFetch :=
  let row := rB * s.blockSize
  let rowStop := min (row + s.blockSize) (rowCount s .body)
  let column := cB * s.blockSize
  let colStop := min (column + s.blockSize) (columnCount s .body)
  ⟨rB, cB, row, rowStop, column, colStop,
    ⟨s.fpath, s.uri, s.ixstr,
      toString row ++ ":" ++ toString rowStop ++ ", " ++
        toString column ++ ":" ++ toString colStop⟩⟩

end HdfDatasetModelBase

/-- Concrete fixture: metadata for visible shape (250, 50) with identity
slice labels. -/
def exMeta : IDatasetMeta := ⟨"0:250, 0:50", (250, 50), (⟨0, 250, 1⟩, ⟨0, 50, 1⟩)⟩

/-- Concrete fixture: metadata for visible shape (10, 10), used as the
result of a re-slice. -/
def exMeta2 : IDatasetMeta := ⟨"0:10, 0:10", (10, 10), (⟨0, 10, 1⟩, ⟨0, 10, 1⟩)⟩

/-- Concrete fixture: metadata whose row slice is (start 10, stop 110,
step 2). -/
def exMetaSlice : IDatasetMeta := ⟨"10:110:2", (50, 50), (⟨10, 110, 2⟩, ⟨0, 50, 1⟩)⟩

/-- Concrete fixture: a fresh model bound to `data.h5` / `/ds` with shape
(250, 50), block size 100, empty block cache. -/
def exState : ModelState := ⟨"data.h5", "/ds", "0:250, 0:50", some exMeta, [], 100⟩

/-- Concrete fixture: `exState` with block (0,0) Pending. -/
def exBusy : ModelState := { exState with blocks := [(0, [(0, .busy)])] }

/-- Concrete fixture: model whose row slice is (10, 110, 2). -/
def exSliceState : ModelState := { exState with ixstr := "10:110:2", meta := some exMetaSlice }

/-- Concrete fixture: `exState` with the row object for block row 1 created
but no inner entry. -/
def exB1 : ModelState := { exState with blocks := [(1, [])] }

/-- Concrete fixture: `exState` with block (1,0) Pending. -/
def exB1s : ModelState := { exState with blocks := [(1, [(0, .busy)])] }

/-- Concrete fixture: a sample 2-D payload for a resolved block. -/
def exData : BlockData := [[1, 2], [3, 4]]

/-- Concrete fixture: the fetch `_fetchBlock` issues for block (1,0) of
`exB1`. -/
def exB1f : PendingFetch :=
  ⟨1, 0, 100, 200, 0, 50, ⟨"data.h5", "/ds", "0:250, 0:50", "100:200, 0:50"⟩⟩

/-- Concrete fixture: `exState` with block (1,0) Resolved with `exData`. -/
def exB1r : ModelState := { exState with blocks := [(1, [(0, .resolved exData)])] }

/-- Concrete fixture: `exState` with the row object for block row 2 created
but no inner entry. -/
def exB2 : ModelState := { exState with blocks := [(2, [])] }

/-- Concrete fixture: the fetch `_fetchBlock` issues for block (0,0) of
`exState` (after `data` creates the row object). -/
def exF0 : PendingFetch :=
  ⟨0, 0, 0, 100, 0, 50, ⟨"data.h5", "/ds", "0:250, 0:50", "0:100, 0:50"⟩⟩

section AssocLemmas

@[simp]
theorem lookupA_nil {α : Type} (k : Nat) : lookupA ([] : List (Nat × α)) k = none := rfl

theorem lookupA_setA_self {α : Type} (l : List (Nat × α)) (k : Nat) (v : α) :
    lookupA (setA l k v) k = some v := by
  induction l with
  | nil => simp [setA, lookupA]
  | cons hd tl ih =>
    obtain ⟨k', v'⟩ := hd
    by_cases h : k' = k
    · simp [setA, lookupA, h]
    · simp [setA, lookupA, h, ih]

theorem lookupA_setA_ne {α : Type} (l : List (Nat × α)) (k k' : Nat) (v : α)
    (h : k' ≠ k) : lookupA (setA l k v) k' = lookupA l k' := by
  induction l with
  | nil =>
    simp only [setA, lookupA]
    rw [if_neg (by omega)]
  | cons hd tl ih =>
    obtain ⟨a, b⟩ := hd
    by_cases ha : a = k
    · subst ha
      simp only [setA, if_pos rfl, lookupA]
      rw [if_neg (by omega), if_neg (by omega)]
    · simp only [setA, if_neg ha, lookupA]
      by_cases hb : a = k'
      · simp [hb]
      · simp [hb, ih]

/-- Writing one block entry (the row object is present) changes exactly
that entry of the cache, as seen through `lookupBlock`. -/
theorem lookupBlock_setA (b : Blocks) (brow : BlockRow) (rB cB R C : Nat)
    (st : BlockState) (hrow : lookupA b rB = some brow) :
    lookupBlock (setA b rB (setA brow cB st)) R C =
      if rB = R ∧ cB = C then some st else lookupBlock b R C := by
  by_cases hR : rB = R
  · subst hR
    by_cases hC : cB = C
    · subst hC
      simp [lookupBlock, lookupA_setA_self, hrow]
    · simp [lookupBlock, lookupA_setA_self, hrow,
        lookupA_setA_ne brow cB C st (by omega), hC]
  · simp [lookupBlock, lookupA_setA_ne b rB R (setA brow cB st) (by omega), hR]

end AssocLemmas

/-- `(n - n % b) / b` — the source's way of writing `floor(n / b)` — equals
Nat division (also for `b = 0`, where both sides are 0). -/
theorem sub_mod_div (n b : Nat) : (n - n % b) / b = n / b := by
  rcases Nat.eq_zero_or_pos b with hb | hb
  · subst hb; simp
  · have h := Nat.div_add_mod n b
    have h2 : n - n % b = b * (n / b) := by omega
    rw [h2, Nat.mul_div_cancel_left _ (by omega)]

namespace HdfDatasetModelBase

theorem _fetchBlock_eq (s : ModelState) (rB cB : Nat) (brow : BlockRow)
    (hrow : lookupA s.blocks rB = some brow) :
    _fetchBlock s rB cB =
      some ({ s with blocks := setA s.blocks rB (setA brow cB .busy) },
        issuedFetch s rB cB) := by
  simp [_fetchBlock, hrow, issuedFetch, rowCount, columnCount]

theorem data_body_busy (s : ModelState) (row col : Nat)
    (h : lookupBlock s.blocks (row / s.blockSize) (col / s.blockSize) = some .busy) :
    data s .body row col = ⟨s, none, .null⟩ := by
  have hr := sub_mod_div row s.blockSize
  have hc := sub_mod_div col s.blockSize
  unfold lookupBlock at h
  simp only [data, hr, hc]
  rcases hrow : lookupA s.blocks (row / s.blockSize) with _ | brow
  · rw [hrow] at h; simp at h
  · rw [hrow] at h
    simp only at h
    simp [h]

theorem data_body_resolved (s : ModelState) (row col : Nat) (d : BlockData)
    (h : lookupBlock s.blocks (row / s.blockSize) (col / s.blockSize) =
      some (.resolved d)) :
    data s .body row col =
      ⟨s, none, blockCell d (row % s.blockSize) (col % s.blockSize)⟩ := by
  have hr := sub_mod_div row s.blockSize
  have hc := sub_mod_div col s.blockSize
  unfold lookupBlock at h
  simp only [data, hr, hc]
  rcases hrow : lookupA s.blocks (row / s.blockSize) with _ | brow
  · rw [hrow] at h; simp at h
  · rw [hrow] at h
    simp only at h
    simp [h]

theorem data_body_absent (s : ModelState) (row col : Nat)
    (h : lookupBlock s.blocks (row / s.blockSize) (col / s.blockSize) = none) :
    ∃ s' : ModelState,
      data s .body row col =
        ⟨s', some (issuedFetch s (row / s.blockSize) (col / s.blockSize)), .null⟩ ∧
      s'.fpath = s.fpath ∧ s'.uri = s.uri ∧ s'.ixstr = s.ixstr ∧
      s'.meta = s.meta ∧ s'.blockSize = s.blockSize ∧
      ∀ R C, lookupBlock s'.blocks R C =
        if row / s.blockSize = R ∧ col / s.blockSize = C then some .busy
        else lookupBlock s.blocks R C := by
  have hr := sub_mod_div row s.blockSize
  have hc := sub_mod_div col s.blockSize
  unfold lookupBlock at h
  simp only [data, hr, hc]
  rcases hrow : lookupA s.blocks (row / s.blockSize) with _ | brow
  · -- row object missing: the source creates it, then fetches
    have hrow0 : lookupA (setA s.blocks (row / s.blockSize) ([] : BlockRow))
        (row / s.blockSize) = some [] := lookupA_setA_self _ _ _
    refine ⟨{ s with blocks := setA (setA s.blocks (row / s.blockSize) []) (row / s.blockSize) (setA [] (col / s.blockSize) .busy) }, ?_, rfl, rfl, rfl, rfl, rfl, ?_⟩
    · simp [_fetchBlock, lookupA_setA_self, issuedFetch, rowCount, columnCount]
    · intro R C
      rw [lookupBlock_setA _ _ _ _ _ _ _ hrow0]
      by_cases hRC : row / s.blockSize = R ∧ col / s.blockSize = C
      · simp [hRC]
      · rw [if_neg hRC, if_neg hRC]
        by_cases hRr : row / s.blockSize = R
        · subst hRr
          simp [lookupBlock, lookupA_setA_self, hrow]
        · simp [lookupBlock, lookupA_setA_ne _ _ _ _ (by omega : R ≠ row / s.blockSize)]
  · rw [hrow] at h
    simp only at h
    refine ⟨{ s with blocks := setA s.blocks (row / s.blockSize) (setA brow (col / s.blockSize) .busy) }, ?_, rfl, rfl, rfl, rfl, rfl, ?_⟩
    · simp only [h]
      simp [_fetchBlock, hrow, issuedFetch, rowCount, columnCount]
    · intro R C
      exact lookupBlock_setA _ _ _ _ _ _ _ hrow

theorem countFetches_append (a b : List PendingFetch) (R C : Nat) :
    countFetches (a ++ b) R C = countFetches a R C + countFetches b R C :=
  List.countP_append _ _ _

theorem stepOp_query_header_row (s : ModelState) (row col : Nat) :
    stepOp s (.query .rowHeader row col) = (s, []) := rfl

theorem stepOp_query_header_col (s : ModelState) (row col : Nat) :
    stepOp s (.query .columnHeader row col) = (s, []) := rfl

theorem stepOp_query_header_corner (s : ModelState) (row col : Nat) :
    stepOp s (.query .cornerHeader row col) = (s, []) := rfl

theorem stepOp_reject (s : ModelState) (f : PendingFetch) :
    stepOp s (.reject f) = (s, []) := rfl

/-- A body query whose block entry exists (busy or resolved) changes
nothing and issues nothing. -/
theorem stepOp_query_body_hit (s : ModelState) (row col : Nat)
    (h : lookupBlock s.blocks (row / s.blockSize) (col / s.blockSize) ≠ none) :
    stepOp s (.query .body row col) = (s, []) := by
  rcases hcase : lookupBlock s.blocks (row / s.blockSize) (col / s.blockSize)
      with _ | b
  · exact absurd hcase h
  · cases b with
    | busy => simp [stepOp, data_body_busy s row col hcase]
    | resolved d => simp [stepOp, data_body_resolved s row col d hcase]

/-- A body query on an Absent block issues exactly one fetch — for that
block — and transitions exactly that block to busy. -/
theorem stepOp_query_body_miss (s : ModelState) (row col R C : Nat)
    (h : lookupBlock s.blocks (row / s.blockSize) (col / s.blockSize) = none) :
    countFetches (stepOp s (.query .body row col)).2 R C =
      (if row / s.blockSize = R ∧ col / s.blockSize = C then 1 else 0) ∧
    lookupBlock (stepOp s (.query .body row col)).1.blocks R C =
      (if row / s.blockSize = R ∧ col / s.blockSize = C then some .busy
       else lookupBlock s.blocks R C) := by
  obtain ⟨s', heq, -, -, -, -, -, hlook⟩ := data_body_absent s row col h
  constructor
  · simp only [stepOp, heq]
    by_cases hRC : row / s.blockSize = R ∧ col / s.blockSize = C
    · simp [countFetches, issuedFetch, hRC.1, hRC.2]
    · rcases not_and_or.mp hRC with hh | hh <;>
        simp [countFetches, issuedFetch, hRC, hh]
  · simp only [stepOp, heq]
    exact hlook R C

/-- Resolution of a fetch changes at most the entry of the block the fetch
targeted (and only when the row object exists in the current cache). -/
theorem stepOp_resolve_lookup (s : ModelState) (f : PendingFetch)
    (d : BlockData) (R C : Nat) :
    lookupBlock (stepOp s (.resolve f d)).1.blocks R C =
      (if (lookupA s.blocks f.rowBlock).isSome ∧ f.rowBlock = R ∧ f.colBlock = C
       then some (.resolved d) else lookupBlock s.blocks R C) := by
  rcases hrow : lookupA s.blocks f.rowBlock with _ | brow
  · simp [stepOp, fetchBlockResolve, hrow]
  · simp only [stepOp, fetchBlockResolve, hrow]
    rw [lookupBlock_setA _ _ _ _ _ _ _ hrow]
    simp [hrow]

theorem stepOp_resolve_fetches (s : ModelState) (f : PendingFetch)
    (d : BlockData) : (stepOp s (.resolve f d)).2 = [] := by
  rcases hrow : lookupA s.blocks f.rowBlock with _ | brow <;>
    simp [stepOp, fetchBlockResolve, hrow]

/-- Step-level invariant behind idempotent request suppression: a step
issues at most one fetch for any given block; it issues none for a block
that already has a cache entry, and it never deletes an entry; and any
step that does issue a fetch for a block leaves that block with an entry. -/
theorem stepOp_bound (s : ModelState) (op : Op) (R C : Nat) :
    countFetches (stepOp s op).2 R C ≤
        (if (lookupBlock s.blocks R C).isSome then 0 else 1) ∧
      ((lookupBlock s.blocks R C).isSome →
        (lookupBlock (stepOp s op).1.blocks R C).isSome) ∧
      (countFetches (stepOp s op).2 R C = 1 →
        (lookupBlock (stepOp s op).1.blocks R C).isSome) := by
  cases op with
  | query region row col =>
    cases region with
    | body =>
      by_cases h : lookupBlock s.blocks (row / s.blockSize) (col / s.blockSize) = none
      · obtain ⟨hcnt, hlook⟩ := stepOp_query_body_miss s row col R C h
        by_cases hRC : row / s.blockSize = R ∧ col / s.blockSize = C
        · rw [hcnt, hlook, if_pos hRC, if_pos hRC]
          have : lookupBlock s.blocks R C = none := hRC.1 ▸ hRC.2 ▸ h
          simp [this]
        · rw [hcnt, hlook, if_neg hRC, if_neg hRC]
          refine ⟨by split <;> omega, fun hs => hs, by omega⟩
      · rw [stepOp_query_body_hit s row col h]
        refine ⟨by simp [countFetches], fun hs => hs,
          by simp [countFetches]⟩
    | rowHeader =>
      rw [stepOp_query_header_row]
      exact ⟨by simp [countFetches], fun hs => hs,
        by simp [countFetches]⟩
    | columnHeader =>
      rw [stepOp_query_header_col]
      exact ⟨by simp [countFetches], fun hs => hs,
        by simp [countFetches]⟩
    | cornerHeader =>
      rw [stepOp_query_header_corner]
      exact ⟨by simp [countFetches], fun hs => hs,
        by simp [countFetches]⟩
  | resolve f d =>
    rw [stepOp_resolve_fetches s f d] at *
    refine ⟨by simp [countFetches], ?_, by simp [countFetches]⟩
    intro hs
    rw [stepOp_resolve_lookup]
    split
    · simp
    · exact hs
  | reject f =>
    rw [stepOp_reject]
    exact ⟨by simp [countFetches], fun hs => hs,
      by simp [countFetches]⟩

/-- Trace-level idempotent request suppression: over any interleaving of
queries, resolutions and rejections (no invalidation), the number of
fetches issued for a block is capped by 1, or by 0 if the block already
has a cache entry; and cache entries are never lost. -/
theorem runOps_fetch_bound (ops : List Op) (s : ModelState) (R C : Nat) :
    countFetches (runOps s ops).2 R C ≤
        (if (lookupBlock s.blocks R C).isSome then 0 else 1) ∧
      ((lookupBlock s.blocks R C).isSome →
        (lookupBlock (runOps s ops).1.blocks R C).isSome) := by
  induction ops generalizing s with
  | nil => exact ⟨by simp [runOps, countFetches], fun hs => hs⟩
  | cons op rest ih =>
    obtain ⟨h1, h2, h3⟩ := stepOp_bound s op R C
    obtain ⟨ih1, ih2⟩ := ih (stepOp s op).1
    simp only [runOps, countFetches_append]
    by_cases hs : (lookupBlock s.blocks R C).isSome
    · rw [if_pos hs] at h1 ⊢
      rw [if_pos (h2 hs)] at ih1
      exact ⟨by omega, fun _ => ih2 (h2 hs)⟩
    · rw [if_neg hs] at h1 ⊢
      constructor
      · rcases Nat.lt_or_ge (countFetches (stepOp s op).2 R C) 1 with hc | hc
        · have : countFetches (stepOp s op).2 R C = 0 := by omega
          split at ih1 <;> omega
        · have hc1 : countFetches (stepOp s op).2 R C = 1 := by omega
          rw [if_pos (h3 hc1)] at ih1
          omega
      · exact fun hh => absurd hh hs


/-- The event a successful block-fetch resolution emits is always the
`cells-changed` record built from the values the callback captured at
issue time. -/
theorem fetchBlockResolve_snd (t : ModelState) (f : PendingFetch)
    (d : BlockData) (r : ModelState × ChangedArgs)
    (h : fetchBlockResolve t f d = some r) :
    r.2 = .cellsChanged f.row f.column (f.rowStop - f.row)
      (f.colStop - f.column) := by
  rcases hrow : lookupA t.blocks f.rowBlock with _ | brow
  · simp [fetchBlockResolve, hrow] at h
  · simp only [fetchBlockResolve, hrow, Option.some.injEq] at h
    rw [← h]

/-- A Pending block entry survives any step other than a resolution of
that very block, and no such step issues a fetch for it. -/
theorem stepOp_busy_persists (s : ModelState) (op : Op) (R C : Nat)
    (h : lookupBlock s.blocks R C = some .busy)
    (hop : ∀ f d, op = .resolve f d → ¬(f.rowBlock = R ∧ f.colBlock = C)) :
    lookupBlock (stepOp s op).1.blocks R C = some .busy ∧
      countFetches (stepOp s op).2 R C = 0 := by
  cases op with
  | query region row col =>
    cases region with
    | body =>
      by_cases hmiss :
          lookupBlock s.blocks (row / s.blockSize) (col / s.blockSize) = none
      · obtain ⟨hcnt, hlook⟩ := stepOp_query_body_miss s row col R C hmiss
        have hne : ¬(row / s.blockSize = R ∧ col / s.blockSize = C) := by
          rintro ⟨rfl, rfl⟩
          rw [h] at hmiss
          cases hmiss
        rw [hcnt, hlook, if_neg hne, if_neg hne]
        exact ⟨h, rfl⟩
      · rw [stepOp_query_body_hit s row col hmiss]
        exact ⟨h, rfl⟩
    | rowHeader => rw [stepOp_query_header_row]; exact ⟨h, rfl⟩
    | columnHeader => rw [stepOp_query_header_col]; exact ⟨h, rfl⟩
    | cornerHeader => rw [stepOp_query_header_corner]; exact ⟨h, rfl⟩
  | resolve f d =>
    have hne := hop f d rfl
    rw [stepOp_resolve_lookup, stepOp_resolve_fetches]
    rw [if_neg (by tauto)]
    exact ⟨h, rfl⟩
  | reject f => rw [stepOp_reject]; exact ⟨h, rfl⟩

/-- Trace version: a Pending block stays Pending across any interleaving
of queries, foreign resolutions and rejections, and no fetch is ever
issued for it. -/
theorem runOps_busy_persists (ops : List Op) (s : ModelState) (R C : Nat)
    (h : lookupBlock s.blocks R C = some .busy)
    (hops : ∀ f d, Op.resolve f d ∈ ops → ¬(f.rowBlock = R ∧ f.colBlock = C)) :
    lookupBlock (runOps s ops).1.blocks R C = some .busy ∧
      countFetches (runOps s ops).2 R C = 0 := by
  induction ops generalizing s with
  | nil => exact ⟨h, rfl⟩
  | cons op rest ih =>
    obtain ⟨hb, hc⟩ := stepOp_busy_persists s op R C h
      (fun f d hfd => hops f d (hfd ▸ List.mem_cons_self _ _))
    obtain ⟨ihb, ihc⟩ := ih (stepOp s op).1 hb
      (fun f d hfd => hops f d (List.mem_cons_of_mem _ hfd))
    simp only [runOps, countFetches_append]
    exact ⟨ihb, by omega⟩

/-- Whenever `_fetchBlock` succeeds, the fetch it hands to its callback is
exactly `issuedFetch` of the state it was called on. -/
theorem _fetchBlock_fields (s : ModelState) (R C : Nat) (s' : ModelState)
    (f : PendingFetch) (h : _fetchBlock s R C = some (s', f)) :
    f = issuedFetch s R C := by
  rcases hrowObj : lookupA s.blocks R with _ | brow
  · simp [_fetchBlock, hrowObj] at h
  · rw [_fetchBlock_eq s R C brow hrowObj] at h
    simp only [Option.some.injEq, Prod.mk.injEq] at h
    exact h.2.symm

end HdfDatasetModelBase

open HdfDatasetModelBase

/-- C2: a `refresh()` whose metadata fetch succeeds, changing the visible
shape from (r1, c1) to (r2, c2), emits exactly — and in this order —
`RowsRemoved(0, r1)`, `ColumnsRemoved(0, c1)`, `RowsInserted(0, r2)`,
`ColumnsInserted(0, c2)`, `ModelReset`, then a "refreshed" notification
carrying the active slice string; the block cache is cleared (every block
back to Absent) as part of the cycle. -/
theorem claim_C2_refresh_event_sequence (s : ModelState) (m : IDatasetMeta) :
    (refresh s (some m)).events =
      [ Event.changed (.rowsRemoved 0 (rowCount s .body)),
        Event.changed (.columnsRemoved 0 (columnCount s .body)),
        Event.changed (.rowsInserted 0 (rowCount (refresh s (some m)).state .body)),
        Event.changed (.columnsInserted 0 (columnCount (refresh s (some m)).state .body)),
        Event.changed .modelReset,
        Event.refreshed s.ixstr ] ∧
    rowCount (refresh s (some m)).state .body = m.visshape.1 ∧
    columnCount (refresh s (some m)).state .body = m.visshape.2 ∧
    (refresh s (some m)).state.blocks = [] ∧
    (∀ R C, lookupBlock (refresh s (some m)).state.blocks R C = none) ∧
    (refresh s (some m)).rejected = false := by
  refine ⟨?_, ?_, ?_, ?_, ?_, ?_⟩ <;>
    simp [refresh, _refresh, rowCount, columnCount, lookupBlock, lookupA]

/-- C5: a `refresh()` whose metadata fetch fails propagates the rejection
and leaves every piece of observable state — metadata, body extent, slice
labels, slice string, and the whole block cache — exactly as it was; no
event is emitted. -/
theorem claim_C5_failed_refresh_inert (s : ModelState) :
    refresh s none = ⟨s, [], true⟩ ∧
    (refresh s none).events = [] ∧
    (refresh s none).rejected = true ∧
    (refresh s none).state = s ∧
    (refresh s none).state.meta = s.meta ∧
    rowCount (refresh s none).state .body = rowCount s .body ∧
    columnCount (refresh s none).state .body = columnCount s .body ∧
    rowSlice (refresh s none).state = rowSlice s ∧
    colSlice (refresh s none).state = colSlice s ∧
    (refresh s none).state.blocks = s.blocks ∧
    (refresh s none).state.ixstr = s.ixstr :=
  ⟨rfl, rfl, rfl, rfl, rfl, rfl, rfl, rfl, rfl, rfl, rfl⟩

/-- C7: `data("row-header", r, c)` returns the string of
`rowSlice.start + r * rowSlice.step` (e.g. "20" for slice (10,110,2) at
row 5), `data("column-header", r, c)` the string of
`colSlice.start + c * colSlice.step`, and `data("corner-header", r, c)`
always returns null. -/
theorem claim_C7_header_values (s : ModelState) (row col : Nat) :
    data s .rowHeader row col =
      ⟨s, none, .str (toString ((rowSlice s).start + (row : Int) * (rowSlice s).step))⟩ ∧
    data s .columnHeader row col =
      ⟨s, none, .str (toString ((colSlice s).start + (col : Int) * (colSlice s).step))⟩ ∧
    data s .cornerHeader row col = ⟨s, none, .null⟩ ∧
    (data exSliceState .rowHeader 5 0).value = .str "20" :=
  ⟨rfl, rfl, rfl, by decide⟩

/-- C8: for the "body" region `rowCount`/`columnCount` return the visible
shape (or 0 when metadata is absent); for header regions they return the
fixed value 1 regardless of metadata. -/
theorem claim_C8_region_counts (s : ModelState) (m : IDatasetMeta) :
    (s.meta = some m →
      rowCount s .body = m.visshape.1 ∧ columnCount s .body = m.visshape.2) ∧
    (s.meta = none → rowCount s .body = 0 ∧ columnCount s .body = 0) ∧
    rowCount s .columnHeader = 1 ∧
    columnCount s .rowHeader = 1 := by
  refine ⟨fun h => ?_, fun h => ?_, rfl, rfl⟩ <;> simp [rowCount, columnCount, h]

/-- C8 witness: on the concrete model `exState`, the body extent equals the
metadata's visible shape. -/
theorem claim_C8_witness :
    rowCount exState .body = exMeta.visshape.1 ∧
      columnCount exState .body = exMeta.visshape.2 :=
  (claim_C8_region_counts exState exMeta).1 rfl

/-- C10: setting the slice string updates the `ixstr` getter synchronously
(and the refresh it triggers already carries the new value), while
`_refresh`/`refresh` never touch the slice string or the bound resource
identity (`fpath`, `uri`) — they change only metadata and block cache. -/
theorem claim_C10_slice_string_frame (s : ModelState) (ix : String)
    (m : IDatasetMeta) (resp : Option IDatasetMeta) :
    (setIxstr s ix).1.ixstr = ix ∧
    (setIxstr s ix).2 = ⟨s.fpath, s.uri, ix⟩ ∧
    (setIxstr s ix).1.fpath = s.fpath ∧
    (setIxstr s ix).1.uri = s.uri ∧
    (_refresh s m).1.ixstr = s.ixstr ∧
    (_refresh s m).1.fpath = s.fpath ∧
    (_refresh s m).1.uri = s.uri ∧
    (_refresh s m).1.blockSize = s.blockSize ∧
    (refresh s resp).state.ixstr = s.ixstr ∧
    (refresh s resp).state.fpath = s.fpath ∧
    (refresh s resp).state.uri = s.uri ∧
    (refresh s resp).state.blockSize = s.blockSize := by
  cases resp <;>
    exact ⟨rfl, rfl, rfl, rfl, rfl, rfl, rfl, rfl, rfl, rfl, rfl, rfl⟩

/-- C1: a body cell query on an Absent block returns null and issues
exactly one fetch, for that block; on a Pending ("busy") block it returns
null and issues no fetch; on a Resolved block it returns
`data[row mod blockSize][col mod blockSize]`; and along any interleaving
of operations between two invalidations, at most one fetch is ever issued
per block. -/
theorem claim_C1_body_cell_protocol (s : ModelState) (row col : Nat)
    (hrow : row < rowCount s .body) (hcol : col < columnCount s .body) :
    (lookupBlock s.blocks (row / s.blockSize) (col / s.blockSize) = none →
      ∃ s' f, data s .body row col = ⟨s', some f, .null⟩ ∧
        f.rowBlock = row / s.blockSize ∧ f.colBlock = col / s.blockSize) ∧
    (lookupBlock s.blocks (row / s.blockSize) (col / s.blockSize) = some .busy →
      data s .body row col = ⟨s, none, .null⟩) ∧
    (∀ d, lookupBlock s.blocks (row / s.blockSize) (col / s.blockSize) =
        some (.resolved d) →
      data s .body row col =
        ⟨s, none, blockCell d (row % s.blockSize) (col % s.blockSize)⟩) ∧
    (∀ ops R C, lookupBlock s.blocks R C = none →
      countFetches (runOps s ops).2 R C ≤ 1) := by
  refine ⟨?_, data_body_busy s row col, fun d => data_body_resolved s row col d, ?_⟩
  · intro h
    obtain ⟨s', heq, -, -, -, -, -, -⟩ := data_body_absent s row col h
    exact ⟨s', issuedFetch s _ _, heq, rfl, rfl⟩
  · intro ops R C h
    have hb := (runOps_fetch_bound ops s R C).1
    rw [h] at hb
    simpa using hb

/-- C1 witness: on the concrete model with block (0,0) Pending, querying
cell (0,0) returns null, issues no fetch and changes nothing. -/
theorem claim_C1_witness :
    data exBusy .body 0 0 = ⟨exBusy, none, .null⟩ :=
  (claim_C1_body_cell_protocol exBusy 0 0 (by decide) (by decide)).2.1 (by decide)

/-- C3: every successfully issued block fetch is clipped at the grid edge
(`rowStop = min(blockRow*blockSize + blockSize, visibleRowCount)`, and
symmetrically for columns), and its resolution emits exactly one
`CellsChanged` with that origin and those spans; concretely, with block
size 100 and visible shape (250, 50), resolving block (1,0) emits
`CellsChanged(row 100, column 0, rowSpan 100, columnSpan 50)` and the
fetch for block (2,0) covers rows 200 to 250, a span of 50. -/
theorem claim_C3_edge_clipping (s : ModelState) (R C : Nat) (s' : ModelState)
    (f : PendingFetch) (h : _fetchBlock s R C = some (s', f)) :
    (f.row = R * s.blockSize ∧
     f.rowStop = min (R * s.blockSize + s.blockSize) (rowCount s .body) ∧
     f.column = C * s.blockSize ∧
     f.colStop = min (C * s.blockSize + s.blockSize) (columnCount s .body) ∧
     ∀ t d r, fetchBlockResolve t f d = some r →
       r.2 = .cellsChanged f.row f.column (f.rowStop - f.row)
         (f.colStop - f.column)) ∧
    ((_fetchBlock exB1 1 0).bind
        (fun p => (fetchBlockResolve p.1 p.2 exData).map Prod.snd) =
      some (.cellsChanged 100 0 100 50)) ∧
    ((_fetchBlock exB2 2 0).map (fun p => (p.2.row, p.2.rowStop)) =
      some (200, 250)) := by
  refine ⟨?_, by decide, by decide⟩
  have hf := _fetchBlock_fields s R C s' f h
  subst hf
  exact ⟨rfl, rfl, rfl, rfl, fun t d r hr => fetchBlockResolve_snd t _ d r hr⟩

/-- C3 witness: the concrete fetch for block (1,0) of `exB1` starts at row
100 and is clipped to stop at row 200 (full row span, within the 250-row
grid). -/
theorem claim_C3_witness :
    exB1f.row = 1 * exB1.blockSize ∧
      exB1f.rowStop = min (1 * exB1.blockSize + exB1.blockSize) (rowCount exB1 .body) :=
  ⟨(claim_C3_edge_clipping exB1 1 0 exB1s exB1f (by decide)).1.1,
   (claim_C3_edge_clipping exB1 1 0 exB1s exB1f (by decide)).1.2.1⟩

/-- C6: a failed block-data fetch runs no code (the rejection is silently
dropped), so the block stays Pending: every later query of its cells
returns null and issues no fetch, across any interleaving that contains no
resolution of this very block, until an invalidation clears the whole
cache. -/
theorem claim_C6_failed_fetch_stuck (s : ModelState) (row col : Nat)
    (h : lookupBlock s.blocks (row / s.blockSize) (col / s.blockSize) = some .busy) :
    (∀ f, stepOp s (.reject f) = (s, [])) ∧
    data s .body row col = ⟨s, none, .null⟩ ∧
    (∀ ops, (∀ f d, Op.resolve f d ∈ ops →
        ¬(f.rowBlock = row / s.blockSize ∧ f.colBlock = col / s.blockSize)) →
      lookupBlock (runOps s ops).1.blocks (row / s.blockSize) (col / s.blockSize) =
          some .busy ∧
        countFetches (runOps s ops).2 (row / s.blockSize) (col / s.blockSize) = 0) ∧
    (∀ m, lookupBlock ((_refresh s m).1).blocks (row / s.blockSize)
        (col / s.blockSize) = none) := by
  refine ⟨fun f => rfl, data_body_busy s row col h, ?_, ?_⟩
  · intro ops hops
    exact runOps_busy_persists ops s _ _ h hops
  · intro m
    simp [_refresh, lookupBlock]

/-- C6 witness: with block (0,0) of `exBusy` Pending, a query of cell
(0,0) followed by the dropped rejection of its fetch leaves the block
Pending and issues zero fetches. -/
theorem claim_C6_witness :
    lookupBlock ((runOps exBusy [Op.query .body 0 0, Op.reject exF0]).1).blocks
        (0 / exBusy.blockSize) (0 / exBusy.blockSize) = some .busy ∧
      countFetches (runOps exBusy [Op.query .body 0 0, Op.reject exF0]).2
        (0 / exBusy.blockSize) (0 / exBusy.blockSize) = 0 :=
  (claim_C6_failed_fetch_stuck exBusy 0 0 (by decide)).2.2.1
    [Op.query .body 0 0, Op.reject exF0]
    (by intro f d hmem; simp at hmem)

/-- C9: for a block fetch issued for an in-range block, the sub-range
string sent to the data collaborator ("row:rowStop, column:colStop")
describes exactly the rectangle of the `CellsChanged` event emitted when
that fetch resolves: same origin, same spans. -/
theorem claim_C9_request_event_agreement (s : ModelState) (R C : Nat)
    (s' : ModelState) (f : PendingFetch)
    (h : _fetchBlock s R C = some (s', f))
    (hR : R * s.blockSize < rowCount s .body)
    (hC : C * s.blockSize < columnCount s .body) :
    ∀ t d r, fetchBlockResolve t f d = some r →
      r.2 = .cellsChanged f.row f.column (f.rowStop - f.row)
          (f.colStop - f.column) ∧
        f.params.subixstr =
          toString f.row ++ ":" ++ toString (f.row + (f.rowStop - f.row)) ++
            ", " ++ toString f.column ++ ":" ++
            toString (f.column + (f.colStop - f.column)) := by
  have hf := _fetchBlock_fields s R C s' f h
  subst hf
  intro t d r hr
  refine ⟨fetchBlockResolve_snd t _ d r hr, ?_⟩
  show (issuedFetch s R C).params.subixstr = _
  have e1 : R * s.blockSize +
      (min (R * s.blockSize + s.blockSize) (rowCount s .body) - R * s.blockSize) =
      min (R * s.blockSize + s.blockSize) (rowCount s .body) := by omega
  have e2 : C * s.blockSize +
      (min (C * s.blockSize + s.blockSize) (columnCount s .body) - C * s.blockSize) =
      min (C * s.blockSize + s.blockSize) (columnCount s .body) := by omega
  simp only [issuedFetch]
  rw [e1, e2]

/-- C9 witness: for the concrete fetch of block (1,0) of `exB1`, the
requested sub-range string and the emitted `CellsChanged` rectangle agree
(origin (100, 0), spans (100, 50)). -/
theorem claim_C9_witness :
    (exB1r, ChangedArgs.cellsChanged 100 0 100 50).2 =
        ChangedArgs.cellsChanged exB1f.row exB1f.column
          (exB1f.rowStop - exB1f.row) (exB1f.colStop - exB1f.column) ∧
      exB1f.params.subixstr =
        toString exB1f.row ++ ":" ++
          toString (exB1f.row + (exB1f.rowStop - exB1f.row)) ++ ", " ++
          toString exB1f.column ++ ":" ++
          toString (exB1f.column + (exB1f.colStop - exB1f.column)) :=
  claim_C9_request_event_agreement exB1 1 0 exB1s exB1f (by decide) (by decide)
    (by decide) exB1s exData (exB1r, .cellsChanged 100 0 100 50) (by decide)

/-- C4, corrected: a `refresh()` invalidation does not cancel in-flight
fetches — a stale resolution still runs against the replaced cache — but
it writes its data and emits its `CellsChanged` event only when the
current cache holds a row object for its `blockRow` (e.g. one re-created
by a later query).  When the row object is missing — in particular
immediately after `_refresh`, which leaves the cache with no row objects
at all — the assignment `this._blocks[rowBlock][colBlock] = data` throws
a TypeError and neither writes nor emits. -/
theorem claim_C4_stale_resolve (s : ModelState) (f : PendingFetch)
    (d : BlockData) (m : IDatasetMeta) :
    (∀ brow, lookupA s.blocks f.rowBlock = some brow →
      fetchBlockResolve s f d = some
        ({ s with blocks := setA s.blocks f.rowBlock (setA brow f.colBlock (.resolved d)) },
         .cellsChanged f.row f.column (f.rowStop - f.row) (f.colStop - f.column))) ∧
    (lookupA s.blocks f.rowBlock = none → fetchBlockResolve s f d = none) ∧
    (∀ rB, lookupA ((_refresh s m).1).blocks rB = none) := by
  refine ⟨fun brow hrow => ?_, fun hrow => ?_, fun rB => ?_⟩
  · simp [fetchBlockResolve, hrow]
  · simp [fetchBlockResolve, hrow]
  · simp [_refresh]

/-- C4 witness: with the row object for block row 1 present and block
(1,0) Pending, a (stale or not) resolution of its fetch writes the data
and emits the captured `CellsChanged`. -/
theorem claim_C4_witness :
    fetchBlockResolve exB1s exB1f exData = some
      ({ exB1s with blocks := setA exB1s.blocks exB1f.rowBlock (setA [(0, .busy)] exB1f.colBlock (.resolved exData)) },
       .cellsChanged exB1f.row exB1f.column (exB1f.rowStop - exB1f.row)
         (exB1f.colStop - exB1f.column)) :=
  (claim_C4_stale_resolve exB1s exB1f exData exMeta2).1 [(0, .busy)] (by decide)

/-- C4 counterexample: a concrete reachable trace refuting the claim as
stated.  On `exState`, querying cell (0,0) issues the fetch `exF0`; a
`refresh()` then replaces the block cache with a fresh empty object; when
the stale fetch resolves, `fetchBlockResolve` returns `none` — the
assignment `this._blocks[0][0] = data` throws a TypeError, so the data is
*not* written into the now-current cache and no `CellsChanged` event is
emitted, contrary to "writes its block data ... and emits its CellsChanged
event without error". -/
theorem claim_C4_counterexample :
    (data exState .body 0 0).fetch = some exF0 ∧
    (refresh (data exState .body 0 0).state (some exMeta2)).state.blocks = [] ∧
    fetchBlockResolve (refresh (data exState .body 0 0).state (some exMeta2)).state
      exF0 exData = none :=
  ⟨by decide, by decide, by decide⟩
